import Mathlib

/-!
# RetroArch frontend lifecycle (`frontend/frontend.c`)

A shallow embedding of `main_exit`, `rarch_main` and `main`.

The three functions are sequencing code: they call into other subsystems in a
fixed order and branch on a handful of returned values.  The embedding makes
both sides explicit:

* every call that acts on another subsystem is recorded, with its arguments,
  as a `Call`; a run of a function yields the list of calls in program order;
* every value the code reads back from another subsystem is supplied by an
  `Env`, which the theorems quantify over;
* the preprocessor symbols that select code in this file are the fields of a
  `BuildConfig`.

The `do { ... } while(1)` loop of `rarch_main` is run with a fuel bound on the
number of passes; a run that uses up its fuel is reported as still running.
-/

namespace Frontend

/-! ## Data model -/

/-- A C pointer, identified by its address. -/
abbrev Ptr := Nat

/-- The null pointer. -/
def NULL : Ptr := 0

/-- The preprocessor symbols that `frontend.c` tests. -/
structure BuildConfig where
  /-- `HAVE_MAIN`: the host owns the main loop and the entry point. -/
  HAVE_MAIN : Bool
  /-- `HAVE_MENU`. -/
  HAVE_MENU : Bool
  /-- `HAVE_LOGGER`. -/
  HAVE_LOGGER : Bool
  /-- `ANDROID`. -/
  ANDROID : Bool
  /-- `__PS4__`. -/
  __PS4__ : Bool
  deriving DecidableEq, Repr

/-- The `enum rarch_ctl_state` constants used in this file. -/
inductive rarch_ctl_state where
  | RARCH_CTL_PREINIT
  | RARCH_CTL_INIT
  | RARCH_CTL_MAIN_DEINIT
  | RARCH_CTL_DESTROY
  deriving DecidableEq, Repr

/-- The `enum event_command` constants used in this file. -/
inductive event_command where
  | CMD_EVENT_MENU_SAVE_CURRENT_CONFIG
  | CMD_EVENT_PERFCNT_REPORT_FRONTEND_LOG
  deriving DecidableEq, Repr

/-- The `enum rarch_menu_ctl_state` constant used in this file. -/
inductive rarch_menu_ctl_state where
  | RARCH_MENU_CTL_UNSET_OWN_DRIVER
  deriving DecidableEq, Repr

/-- The `enum driver_ctl_state` constant used in this file. -/
inductive driver_ctl_state where
  | RARCH_DRIVER_CTL_DEINIT
  deriving DecidableEq, Repr

/-- The `enum rarch_core_type` constant used in this file. -/
inductive rarch_core_type where
  | CORE_TYPE_PLAIN
  deriving DecidableEq, Repr

/-- The launch context `content_ctx_info_t` filled in by `rarch_main`. -/
structure content_ctx_info_t where
  argc : Int
  argv : List String
  args : Ptr
  environ_get : Ptr
  deriving DecidableEq, Repr

/-- A call out of `frontend.c` that acts on another subsystem, with its
arguments.  Accessors that only hand back a value (`config_get_ptr`,
`frontend_driver_is_inited`, `frontend_driver_environment_get_ptr`,
`path_get_ptr`, `path_get_realsize`) are answered by the `Env` and leave no
entry. -/
inductive Call where
  | rarch_ctl (state : rarch_ctl_state) (data : Ptr)
  | frontend_driver_init_first (args : Ptr)
  | task_push_load_content_from_cli (core_path fullpath : Ptr)
      (content_info : content_ctx_info_t) (type : rarch_core_type) (cb cb_data : Ptr)
  | ui_companion_driver_init_first
  /-- The argument is the value `*sleep_ms` holds when the call is made. -/
  | runloop_iterate (sleep_ms : Nat)
  | retro_sleep (msec : Nat)
  | task_queue_check
  | command_event (cmd : event_command) (data : Ptr)
  | menu_driver_ctl (state : rarch_menu_ctl_state) (data : Ptr)
  | logger_shutdown
  | frontend_driver_deinit (args : Ptr)
  | frontend_driver_exitspawn (s : Ptr) (len : Nat)
  | ui_companion_driver_deinit
  | frontend_driver_shutdown (unused : Bool)
  | driver_ctl (state : driver_ctl_state) (data : Ptr)
  | ui_companion_driver_free
  | frontend_driver_free
  | sceKernelLoadStartModule (name : String)
  | sceKernelDlsym (symbol : String)
  deriving DecidableEq, Repr

/-- What the other subsystems answer during one run. -/
structure Env where
  /-- The value of `config_get_ptr()->bools.config_save_on_exit`. -/
  config_save_on_exit : Bool
  /-- The value of `frontend_driver_is_inited()`. -/
  frontend_driver_is_inited : Bool
  /-- The value of `frontend_driver_environment_get_ptr()`. -/
  frontend_driver_environment_get_ptr : Ptr
  /-- The value `task_push_load_content_from_cli` returns for a launch context. -/
  task_push_load_content_from_cli : content_ctx_info_t → Bool
  /-- The `n`-th call (from 0) of `runloop_iterate`, entered with `*sleep_ms`
  holding the given value: the returned `int` and the value left in the
  `unsigned` `*sleep_ms`.  The code only compares these values (`ret == 1`,
  `sleep_ms > 0`, `ret == -1`) and passes `sleep_ms` on; it does no arithmetic
  on them. -/
  runloop_iterate : Nat → Nat → Int × Nat
  /-- The value of `path_get_ptr(RARCH_PATH_CORE)`. -/
  path_core : Ptr
  /-- The value of `path_get_realsize(RARCH_PATH_CORE)`. -/
  path_core_realsize : Nat
  /-- Whether `frontend_driver_exitspawn` comes back to its caller.  The
  function is defined outside this file; on a platform that replaces the
  process image with the core at `path_core` it does not return (§4.3 step 7
  and §7 of the specification). -/
  frontend_driver_exitspawn_returns : Bool

/-- How a run of `rarch_main` or `main` ends. -/
inductive Outcome where
  /-- The function returned this value. -/
  | returned (code : Int)
  /-- The process image was replaced inside `frontend_driver_exitspawn`. -/
  | replaced
  /-- The main loop has not seen a terminate result within the fuel given. -/
  | running
  deriving DecidableEq, Repr

/-! ## The code -/

/-- `main_exit` (lines 76-109): the calls made, and whether the function
returned to its caller. -/
def main_exit (cfg : BuildConfig) (env : Env) (args : Ptr) : List Call × Bool :=
  let tr : List Call := []
  let tr := if env.config_save_on_exit then
      tr ++ [Call.command_event .CMD_EVENT_MENU_SAVE_CURRENT_CONFIG NULL]
    else tr
  let tr := if cfg.HAVE_MENU then
      tr ++ [Call.menu_driver_ctl .RARCH_MENU_CTL_UNSET_OWN_DRIVER NULL]
    else tr
  let tr := tr ++ [Call.rarch_ctl .RARCH_CTL_MAIN_DEINIT NULL]
  let tr := tr ++ [Call.command_event .CMD_EVENT_PERFCNT_REPORT_FRONTEND_LOG NULL]
  let tr := if cfg.HAVE_LOGGER && !cfg.ANDROID then tr ++ [Call.logger_shutdown] else tr
  let tr := tr ++ [Call.frontend_driver_deinit args]
  let tr := tr ++ [Call.frontend_driver_exitspawn env.path_core env.path_core_realsize]
  if !env.frontend_driver_exitspawn_returns then (tr, false)
  else
    let tr := tr ++ [Call.rarch_ctl .RARCH_CTL_DESTROY NULL]
    let tr := tr ++ [Call.ui_companion_driver_deinit]
    let tr := tr ++ [Call.frontend_driver_shutdown false]
    let tr := tr ++ [Call.driver_ctl .RARCH_DRIVER_CTL_DEINIT NULL]
    let tr := tr ++ [Call.ui_companion_driver_free]
    let tr := tr ++ [Call.frontend_driver_free]
    (tr, true)

/-- One pass through the body of the `do { ... } while(1)` loop of
`rarch_main` (lines 154-160), as the `n`-th pass: the calls made and the
value of `ret`. -/
def loop_body (env : Env) (n : Nat) : List Call × Int :=
  let sleep_ms : Nat := 0
  let tr : List Call := [Call.runloop_iterate sleep_ms]
  let r := env.runloop_iterate n sleep_ms
  let ret := r.1
  let sleep_ms := r.2
  let tr := if ret = 1 ∧ sleep_ms > 0 then tr ++ [Call.retro_sleep sleep_ms] else tr
  let tr := tr ++ [Call.task_queue_check]
  (tr, ret)

/-- The `do { ... } while(1)` loop of `rarch_main` (lines 152-164), entered at
pass `n` with `fuel` passes allowed: the calls made, and whether the loop was
left through `break`. -/
def main_loop (env : Env) : (fuel : Nat) → (n : Nat) → List Call × Bool
  | 0, _ => ([], false)
  | fuel + 1, n =>
    let b := loop_body env n
    if b.2 = -1 then (b.1, true)
    else
      let rest := main_loop env fuel (n + 1)
      (b.1 ++ rest.1, rest.2)

/-- `rarch_main` (lines 122-170): the calls made and how the run ends. -/
def rarch_main (cfg : BuildConfig) (env : Env) (fuel : Nat)
    (argc : Int) (argv : List String) (data : Ptr) : List Call × Outcome :=
  let args := data
  let tr : List Call := [Call.rarch_ctl .RARCH_CTL_PREINIT NULL]
  let tr := tr ++ [Call.frontend_driver_init_first args]
  let tr := tr ++ [Call.rarch_ctl .RARCH_CTL_INIT NULL]
  -- the `if (frontend_driver_is_inited())` block: the calls so far, and
  -- whether its `return 1` is taken
  let blk : List Call × Bool :=
    if env.frontend_driver_is_inited then
      let info : content_ctx_info_t :=
        ⟨argc, argv, args, env.frontend_driver_environment_get_ptr⟩
      let tr := tr ++
        [Call.task_push_load_content_from_cli NULL NULL info .CORE_TYPE_PLAIN NULL NULL]
      if !env.task_push_load_content_from_cli info then (tr, true) else (tr, false)
    else (tr, false)
  if blk.2 then (blk.1, .returned 1)
  else
    let tr := blk.1 ++ [Call.ui_companion_driver_init_first]
    if cfg.HAVE_MAIN then (tr, .returned 0)
    else
      let lp := main_loop env fuel 0
      if !lp.2 then (tr ++ lp.1, .running)
      else
        let ex := main_exit cfg env args
        if !ex.2 then (tr ++ lp.1 ++ ex.1, .replaced)
        else (tr ++ lp.1 ++ ex.1, .returned 0)

/-- `main` (lines 173-193); compiled only when `HAVE_MAIN` is not defined, so
`none` when it is. -/
def main (cfg : BuildConfig) (env : Env) (fuel : Nat)
    (argc : Int) (argv : List String) : Option (List Call × Outcome) :=
  if cfg.HAVE_MAIN then none
  else
    let tr : List Call :=
      if cfg.__PS4__ then
        [Call.sceKernelLoadStartModule "libSceLibcInternal.sprx",
         Call.sceKernelDlsym "__stdinp",
         Call.sceKernelDlsym "__stdoutp",
         Call.sceKernelDlsym "__stderrp",
         Call.sceKernelDlsym "__isthreaded",
         Call.sceKernelDlsym "__mb_sb_limit",
         Call.sceKernelDlsym "_CurrentRuneLocale",
         Call.sceKernelDlsym "_DefaultRuneLocale"]
      else []
    let r := rarch_main cfg env fuel argc argv NULL
    some (tr ++ r.1, r.2)

/-! ## Vocabulary for the statements -/

/-- The calls made from inside the main loop. -/
def Call.in_main_loop : Call → Bool
  | .runloop_iterate _ => true
  | .retro_sleep _ => true
  | .task_queue_check => true
  | _ => false

/-- The calls that `main_exit` makes. -/
def Call.in_main_exit : Call → Bool
  | .command_event _ _ => true
  | .menu_driver_ctl _ _ => true
  | .rarch_ctl .RARCH_CTL_MAIN_DEINIT _ => true
  | .rarch_ctl .RARCH_CTL_DESTROY _ => true
  | .logger_shutdown => true
  | .frontend_driver_deinit _ => true
  | .frontend_driver_exitspawn _ _ => true
  | .ui_companion_driver_deinit => true
  | .frontend_driver_shutdown _ => true
  | .driver_ctl _ _ => true
  | .ui_companion_driver_free => true
  | .frontend_driver_free => true
  | _ => false

/-- A call of `runloop_iterate`, whatever its argument. -/
def Call.is_runloop_iterate : Call → Bool
  | .runloop_iterate _ => true
  | _ => false

/-- A call of `retro_sleep`, whatever its argument. -/
def Call.is_retro_sleep : Call → Bool
  | .retro_sleep _ => true
  | _ => false

/-- A call of `task_push_load_content_from_cli`, whatever its arguments. -/
def Call.is_task_push_load_content : Call → Bool
  | .task_push_load_content_from_cli _ _ _ _ _ _ => true
  | _ => false

/-- The launch context `rarch_main` builds from its arguments. -/
def launch_info (env : Env) (argc : Int) (argv : List String) (data : Ptr) :
    content_ctx_info_t :=
  ⟨argc, argv, data, env.frontend_driver_environment_get_ptr⟩

/-- Startup fails: the driver reports itself initialised and the submission
of the initial content load is refused. -/
def startup_fails (env : Env) (argc : Int) (argv : List String) (data : Ptr) : Bool :=
  env.frontend_driver_is_inited &&
    !env.task_push_load_content_from_cli (launch_info env argc argv data)

/-- The `runloop_iterate` results, read from pass `n` on, are not terminate for
`k` passes and terminate (`-1`) at pass `n + k`. -/
def first_terminate (env : Env) (n k : Nat) : Prop :=
  (∀ i, i < k → (env.runloop_iterate (n + i) 0).1 ≠ -1) ∧
    (env.runloop_iterate (n + k) 0).1 = -1

instance (env : Env) (n k : Nat) : Decidable (first_terminate env n k) := by
  unfold first_terminate; infer_instance

/-- The calls of `m` consecutive passes through the loop body, from pass `n`. -/
def passes (env : Env) (n : Nat) : (m : Nat) → List Call
  | 0 => []
  | m + 1 => (loop_body env n).1 ++ passes env (n + 1) m

/-- The calls of `rarch_main` up to and including
`ui_companion_driver_init_first`, on a run whose startup does not fail. -/
def startup_calls (env : Env) (argc : Int) (argv : List String) (data : Ptr) :
    List Call :=
  [Call.rarch_ctl .RARCH_CTL_PREINIT NULL, Call.frontend_driver_init_first data,
   Call.rarch_ctl .RARCH_CTL_INIT NULL] ++
  (if env.frontend_driver_is_inited then
     [Call.task_push_load_content_from_cli NULL NULL (launch_info env argc argv data)
        .CORE_TYPE_PLAIN NULL NULL]
   else []) ++
  [Call.ui_companion_driver_init_first]

/-- A "save current configuration" event, whatever its data pointer. -/
def Call.is_save_config : Call → Bool
  | .command_event .CMD_EVENT_MENU_SAVE_CURRENT_CONFIG _ => true
  | _ => false

/-- The twelve shutdown steps in the order the specification lists them
(§4.3), where step 9 both deinitialises and frees the UI companion ahead of
step 10; the save event of step 1 is present when the flag is set. -/
def spec_shutdown_order (env : Env) (args : Ptr) : List Call :=
  (if env.config_save_on_exit then
     [Call.command_event .CMD_EVENT_MENU_SAVE_CURRENT_CONFIG NULL]
   else []) ++
  [Call.menu_driver_ctl .RARCH_MENU_CTL_UNSET_OWN_DRIVER NULL,
   Call.rarch_ctl .RARCH_CTL_MAIN_DEINIT NULL,
   Call.command_event .CMD_EVENT_PERFCNT_REPORT_FRONTEND_LOG NULL,
   Call.logger_shutdown,
   Call.frontend_driver_deinit args,
   Call.frontend_driver_exitspawn env.path_core env.path_core_realsize,
   Call.rarch_ctl .RARCH_CTL_DESTROY NULL,
   Call.ui_companion_driver_deinit,
   Call.ui_companion_driver_free,
   Call.frontend_driver_shutdown false,
   Call.driver_ctl .RARCH_DRIVER_CTL_DEINIT NULL,
   Call.frontend_driver_free]

/-! ## Concrete inputs -/

/-- A desktop build: standalone, with menu and logger. -/
def cfgStandalone : BuildConfig :=
  ⟨false, true, true, false, false⟩

/-- The same build with the host owning the loop. -/
def cfgHosted : BuildConfig :=
  ⟨true, true, true, false, false⟩

/-- Content loads; two idle passes asking for 16 ms, one busy pass, then the
terminate result; save-on-exit set; `frontend_driver_exitspawn` returns. -/
def envOk : Env where
  config_save_on_exit := true
  frontend_driver_is_inited := true
  frontend_driver_environment_get_ptr := 4096
  task_push_load_content_from_cli := fun _ => true
  runloop_iterate := fun n _ => if n < 2 then (1, 16) else if n < 3 then (0, 0) else (-1, 0)
  path_core := 8192
  path_core_realsize := 260
  frontend_driver_exitspawn_returns := true

/-- As `envOk`, but the initial content load is refused. -/
def envLoadFails : Env where
  config_save_on_exit := true
  frontend_driver_is_inited := true
  frontend_driver_environment_get_ptr := 4096
  task_push_load_content_from_cli := fun _ => false
  runloop_iterate := fun n _ => if n < 2 then (1, 16) else if n < 3 then (0, 0) else (-1, 0)
  path_core := 8192
  path_core_realsize := 260
  frontend_driver_exitspawn_returns := true

/-- As `envOk`, but the frontend driver does not report itself initialised;
the content load, if it were submitted, would be refused. -/
def envNoDriver : Env where
  config_save_on_exit := true
  frontend_driver_is_inited := false
  frontend_driver_environment_get_ptr := 4096
  task_push_load_content_from_cli := fun _ => false
  runloop_iterate := fun n _ => if n < 2 then (1, 16) else if n < 3 then (0, 0) else (-1, 0)
  path_core := 8192
  path_core_realsize := 260
  frontend_driver_exitspawn_returns := true

/-- As `envOk`, but `frontend_driver_exitspawn` replaces the process image. -/
def envRespawn : Env where
  config_save_on_exit := true
  frontend_driver_is_inited := true
  frontend_driver_environment_get_ptr := 4096
  task_push_load_content_from_cli := fun _ => true
  runloop_iterate := fun n _ => if n < 2 then (1, 16) else if n < 3 then (0, 0) else (-1, 0)
  path_core := 8192
  path_core_realsize := 260
  frontend_driver_exitspawn_returns := false

/-! ## Lemmas on the loop -/

theorem loop_body_ret (env : Env) (n : Nat) :
    (loop_body env n).2 = (env.runloop_iterate n 0).1 := rfl

theorem loop_body_calls (env : Env) (n : Nat) :
    (loop_body env n).1 =
      Call.runloop_iterate 0 ::
        ((if (env.runloop_iterate n 0).1 = 1 ∧ 0 < (env.runloop_iterate n 0).2 then
            [Call.retro_sleep (env.runloop_iterate n 0).2]
          else []) ++ [Call.task_queue_check]) := by
  unfold loop_body
  by_cases h : (env.runloop_iterate n 0).1 = 1 ∧ (env.runloop_iterate n 0).2 > 0
  · have h2 : (env.runloop_iterate n 0).1 = 1 ∧ 0 < (env.runloop_iterate n 0).2 := h
    simp only [if_pos h, if_pos h2]
    rfl
  · have h2 : ¬ ((env.runloop_iterate n 0).1 = 1 ∧ 0 < (env.runloop_iterate n 0).2) := h
    simp only [if_neg h, if_neg h2]
    rfl

theorem first_terminate_succ (env : Env) (n k : Nat)
    (h : first_terminate env n (k + 1)) : first_terminate env (n + 1) k := by
  obtain ⟨h1, h2⟩ := h
  refine ⟨fun i hi => ?_, ?_⟩
  · have := h1 (i + 1) (by omega)
    rwa [show n + 1 + i = n + (i + 1) by omega]
  · rwa [show n + 1 + k = n + (k + 1) by omega]

theorem main_loop_terminates (env : Env) :
    ∀ (k n fuel : Nat), first_terminate env n k → k < fuel →
      main_loop env fuel n = (passes env n (k + 1), true) := by
  intro k
  induction k with
  | zero =>
    intro n fuel h hf
    obtain ⟨f, rfl⟩ : ∃ f, fuel = f + 1 := ⟨fuel - 1, by omega⟩
    have h2 : (loop_body env n).2 = -1 := by
      rw [loop_body_ret]; simpa using h.2
    simp [main_loop, passes, h2]
  | succ k ih =>
    intro n fuel h hf
    obtain ⟨f, rfl⟩ : ∃ f, fuel = f + 1 := ⟨fuel - 1, by omega⟩
    have h0 : ¬ (loop_body env n).2 = -1 := by
      rw [loop_body_ret]; simpa using h.1 0 (by omega)
    have hrest := ih (n + 1) f (first_terminate_succ env n k h) (by omega)
    simp only [main_loop, if_neg h0, hrest]
    rfl

theorem main_loop_running (env : Env) :
    ∀ (fuel n : Nat), (∀ i, i < fuel → (env.runloop_iterate (n + i) 0).1 ≠ -1) →
      main_loop env fuel n = (passes env n fuel, false) := by
  intro fuel
  induction fuel with
  | zero => intro n _; rfl
  | succ f ih =>
    intro n h
    have h0 : ¬ (loop_body env n).2 = -1 := by
      rw [loop_body_ret]; simpa using h 0 (by omega)
    have hrest := ih (n + 1) (fun i hi => by
      have := h (i + 1) (by omega)
      rwa [show n + 1 + i = n + (i + 1) by omega])
    simp only [main_loop, if_neg h0, hrest]
    rfl

theorem main_loop_break_inv (env : Env) :
    ∀ (fuel n : Nat), (main_loop env fuel n).2 = true →
      ∃ k, k < fuel ∧ first_terminate env n k := by
  intro fuel
  induction fuel with
  | zero => intro n h; simp [main_loop] at h
  | succ f ih =>
    intro n h
    by_cases h0 : (loop_body env n).2 = -1
    · exact ⟨0, by omega, by
        refine ⟨fun i hi => absurd hi (by omega), ?_⟩
        rw [loop_body_ret] at h0; simpa using h0⟩
    · simp only [main_loop, if_neg h0] at h
      obtain ⟨k, hk, h1, h2⟩ := ih (n + 1) h
      refine ⟨k + 1, by omega, fun i hi => ?_, ?_⟩
      · cases i with
        | zero => rw [loop_body_ret] at h0; simpa using h0
        | succ j =>
          have := h1 j (by omega)
          rwa [show n + 1 + j = n + (j + 1) by omega] at this
      · rwa [show n + 1 + k = n + (k + 1) by omega] at h2

theorem passes_count_task_queue_check (env : Env) :
    ∀ (m n : Nat), (passes env n m).count Call.task_queue_check = m := by
  intro m
  induction m with
  | zero => intro n; rfl
  | succ m ih =>
    intro n
    have hb : (loop_body env n).1.count Call.task_queue_check = 1 := by
      rw [loop_body_calls]
      split_ifs <;> simp [List.count_cons]
    simp only [passes, List.count_append, ih, hb]
    omega

theorem passes_countP_runloop_iterate (env : Env) :
    ∀ (m n : Nat), (passes env n m).countP Call.is_runloop_iterate = m := by
  intro m
  induction m with
  | zero => intro n; rfl
  | succ m ih =>
    intro n
    have hb : (loop_body env n).1.countP Call.is_runloop_iterate = 1 := by
      rw [loop_body_calls]
      split_ifs <;> rfl
    simp only [passes, List.countP_append, ih, hb]
    omega

theorem loop_body_in_main_loop (env : Env) (n : Nat) :
    ∀ c ∈ (loop_body env n).1, c.in_main_loop = true ∧ c.in_main_exit = false := by
  intro c hc
  rw [loop_body_calls] at hc
  split_ifs at hc <;> simp at hc <;> rcases hc with rfl | rfl | rfl <;> exact ⟨rfl, rfl⟩

theorem passes_in_main_loop (env : Env) :
    ∀ (m n : Nat), ∀ c ∈ passes env n m, c.in_main_loop = true ∧ c.in_main_exit = false := by
  intro m
  induction m with
  | zero => intro n c hc; simp [passes] at hc
  | succ m ih =>
    intro n c hc
    simp only [passes, List.mem_append] at hc
    rcases hc with hc | hc
    · exact loop_body_in_main_loop env n c hc
    · exact ih (n + 1) c hc

/-! ## Lemmas on `main_exit` and `rarch_main` -/

theorem main_exit_calls (cfg : BuildConfig) (env : Env) (args : Ptr) :
    (main_exit cfg env args).1 =
      (if env.config_save_on_exit then
         [Call.command_event .CMD_EVENT_MENU_SAVE_CURRENT_CONFIG NULL]
       else []) ++
      ((if cfg.HAVE_MENU then
          [Call.menu_driver_ctl .RARCH_MENU_CTL_UNSET_OWN_DRIVER NULL]
        else []) ++
       [Call.rarch_ctl .RARCH_CTL_MAIN_DEINIT NULL,
        Call.command_event .CMD_EVENT_PERFCNT_REPORT_FRONTEND_LOG NULL] ++
       (if cfg.HAVE_LOGGER && !cfg.ANDROID then [Call.logger_shutdown] else []) ++
       [Call.frontend_driver_deinit args,
        Call.frontend_driver_exitspawn env.path_core env.path_core_realsize] ++
       (if env.frontend_driver_exitspawn_returns then
          [Call.rarch_ctl .RARCH_CTL_DESTROY NULL,
           Call.ui_companion_driver_deinit,
           Call.frontend_driver_shutdown false,
           Call.driver_ctl .RARCH_DRIVER_CTL_DEINIT NULL,
           Call.ui_companion_driver_free,
           Call.frontend_driver_free]
        else [])) := by
  unfold main_exit
  cases env.config_save_on_exit <;> cases cfg.HAVE_MENU <;> cases cfg.HAVE_LOGGER <;>
    cases cfg.ANDROID <;> cases env.frontend_driver_exitspawn_returns <;> rfl

theorem main_exit_returns (cfg : BuildConfig) (env : Env) (args : Ptr) :
    (main_exit cfg env args).2 = env.frontend_driver_exitspawn_returns := by
  unfold main_exit
  cases env.frontend_driver_exitspawn_returns <;> rfl

theorem forall_mem_ite_nil (P : Call → Prop) (b : Bool) (l : List Call)
    (h : ∀ c ∈ l, P c) : ∀ c ∈ (if b = true then l else []), P c := by
  cases b
  · intro c hc; simp at hc
  · simpa using h

theorem main_exit_in_main_exit (cfg : BuildConfig) (env : Env) (args : Ptr) :
    ∀ c ∈ (main_exit cfg env args).1, c.in_main_exit = true ∧ c.in_main_loop = false := by
  rw [main_exit_calls]
  simp only [List.forall_mem_append]
  refine ⟨forall_mem_ite_nil _ _ _ ?_, ⟨⟨⟨⟨forall_mem_ite_nil _ _ _ ?_, ?_⟩,
    forall_mem_ite_nil _ _ _ ?_⟩, ?_⟩, forall_mem_ite_nil _ _ _ ?_⟩⟩ <;>
    simp [Call.in_main_exit, Call.in_main_loop]

theorem startup_calls_not_loop_not_exit (env : Env) (argc : Int) (argv : List String)
    (data : Ptr) :
    ∀ c ∈ startup_calls env argc argv data,
      c.in_main_loop = false ∧ c.in_main_exit = false := by
  unfold startup_calls
  obtain ⟨_, inited, _, _, _, _, _, _⟩ := env
  cases inited <;> simp [Call.in_main_exit, Call.in_main_loop]

theorem main_exit_of_returns (cfg : BuildConfig) (env : Env) (args : Ptr)
    (hret : env.frontend_driver_exitspawn_returns = true) :
    main_exit cfg env args =
      ((if env.config_save_on_exit then
          [Call.command_event .CMD_EVENT_MENU_SAVE_CURRENT_CONFIG NULL]
        else []) ++
       (if cfg.HAVE_MENU then
          [Call.menu_driver_ctl .RARCH_MENU_CTL_UNSET_OWN_DRIVER NULL]
        else []) ++
       [Call.rarch_ctl .RARCH_CTL_MAIN_DEINIT NULL,
        Call.command_event .CMD_EVENT_PERFCNT_REPORT_FRONTEND_LOG NULL] ++
       (if cfg.HAVE_LOGGER && !cfg.ANDROID then [Call.logger_shutdown] else []) ++
       [Call.frontend_driver_deinit args,
        Call.frontend_driver_exitspawn env.path_core env.path_core_realsize,
        Call.rarch_ctl .RARCH_CTL_DESTROY NULL,
        Call.ui_companion_driver_deinit,
        Call.frontend_driver_shutdown false,
        Call.driver_ctl .RARCH_DRIVER_CTL_DEINIT NULL,
        Call.ui_companion_driver_free,
        Call.frontend_driver_free], true) := by
  have h1 := main_exit_calls cfg env args
  have h2 := main_exit_returns cfg env args
  rw [hret] at h2
  simp only [hret, if_true] at h1
  refine Prod.ext ?_ h2
  rw [h1]; simp

theorem main_exit_nodup (cfg : BuildConfig) (env : Env) (args : Ptr) :
    (main_exit cfg env args).1.Nodup := by
  rw [main_exit_calls]
  obtain ⟨save, _, _, _, _, _, _, ret⟩ := env
  obtain ⟨_, menu, logger, android, _⟩ := cfg
  cases save <;> cases menu <;> cases logger <;> cases android <;> cases ret <;> simp

theorem rarch_main_eq (cfg : BuildConfig) (env : Env) (fuel : Nat)
    (argc : Int) (argv : List String) (data : Ptr) :
    rarch_main cfg env fuel argc argv data =
      if startup_fails env argc argv data then
        ([Call.rarch_ctl .RARCH_CTL_PREINIT NULL, Call.frontend_driver_init_first data,
          Call.rarch_ctl .RARCH_CTL_INIT NULL,
          Call.task_push_load_content_from_cli NULL NULL (launch_info env argc argv data)
            .CORE_TYPE_PLAIN NULL NULL], Outcome.returned 1)
      else if cfg.HAVE_MAIN then (startup_calls env argc argv data, Outcome.returned 0)
      else if (main_loop env fuel 0).2 = false then
        (startup_calls env argc argv data ++ (main_loop env fuel 0).1, Outcome.running)
      else if env.frontend_driver_exitspawn_returns = false then
        (startup_calls env argc argv data ++ (main_loop env fuel 0).1 ++
          (main_exit cfg env data).1, Outcome.replaced)
      else
        (startup_calls env argc argv data ++ (main_loop env fuel 0).1 ++
          (main_exit cfg env data).1, Outcome.returned 0) := by
  have hx := main_exit_returns cfg env data
  unfold rarch_main startup_fails startup_calls launch_info
  simp only [hx]
  cases env.frontend_driver_is_inited <;>
    cases env.task_push_load_content_from_cli
      ⟨argc, argv, data, env.frontend_driver_environment_get_ptr⟩ <;>
    cases cfg.HAVE_MAIN <;> cases (main_loop env fuel 0).2 <;>
    cases env.frontend_driver_exitspawn_returns <;> simp

theorem main_loop_calls_passes (env : Env) :
    ∀ (fuel n : Nat), ∃ m, m ≤ fuel ∧ (main_loop env fuel n).1 = passes env n m := by
  intro fuel
  induction fuel with
  | zero => intro n; exact ⟨0, le_refl _, rfl⟩
  | succ f ih =>
    intro n
    by_cases h0 : (loop_body env n).2 = -1
    · refine ⟨1, by omega, ?_⟩
      simp [main_loop, passes, h0]
    · obtain ⟨m, hm, hp⟩ := ih (n + 1)
      refine ⟨m + 1, by omega, ?_⟩
      simp only [main_loop, if_neg h0, passes, hp]

theorem main_loop_in_main_loop (env : Env) (fuel n : Nat) :
    ∀ c ∈ (main_loop env fuel n).1, c.in_main_loop = true ∧ c.in_main_exit = false := by
  obtain ⟨m, _, hp⟩ := main_loop_calls_passes env fuel n
  rw [hp]
  exact passes_in_main_loop env m n

theorem passes_ends_with_task_queue_check (env : Env) :
    ∀ (m n : Nat), ∃ init, passes env n (m + 1) = init ++ [Call.task_queue_check] := by
  intro m
  induction m with
  | zero =>
    intro n
    refine ⟨Call.runloop_iterate 0 ::
      (if (env.runloop_iterate n 0).1 = 1 ∧ 0 < (env.runloop_iterate n 0).2 then
        [Call.retro_sleep (env.runloop_iterate n 0).2] else []), ?_⟩
    simp [passes, loop_body_calls]
  | succ m ih =>
    intro n
    obtain ⟨init, hi⟩ := ih (n + 1)
    refine ⟨(loop_body env n).1 ++ init, ?_⟩
    rw [passes, hi, List.append_assoc]

theorem is_task_push_of_in_main_loop (c : Call) (h : c.in_main_loop = true) :
    c.is_task_push_load_content = false := by
  cases c <;> first | rfl | simp [Call.in_main_loop] at h

theorem is_task_push_of_in_main_exit (c : Call) (h : c.in_main_exit = true) :
    c.is_task_push_load_content = false := by
  cases c <;> first | rfl | simp [Call.in_main_exit] at h

theorem in_main_loop_of_is_runloop_iterate (c : Call) (h : c.is_runloop_iterate = true) :
    c.in_main_loop = true := by
  cases c <;> first | rfl | simp [Call.is_runloop_iterate] at h

theorem rarch_main_calls_of_break (cfg : BuildConfig) (env : Env) (fuel : Nat)
    (argc : Int) (argv : List String) (data : Ptr) (k : Nat)
    (hmain : cfg.HAVE_MAIN = false) (hstart : startup_fails env argc argv data = false)
    (hterm : first_terminate env 0 k) (hfuel : k < fuel) :
    (rarch_main cfg env fuel argc argv data).1 =
      startup_calls env argc argv data ++ passes env 0 (k + 1) ++
        (main_exit cfg env data).1 ∧
    (rarch_main cfg env fuel argc argv data).2 =
      (if env.frontend_driver_exitspawn_returns then Outcome.returned 0
       else Outcome.replaced) := by
  have hl := main_loop_terminates env k 0 fuel hterm hfuel
  rw [rarch_main_eq]
  simp only [hstart, hmain, hl]
  cases env.frontend_driver_exitspawn_returns <;> simp

theorem rarch_main_running (cfg : BuildConfig) (env : Env) (fuel : Nat)
    (argc : Int) (argv : List String) (data : Ptr) (k : Nat)
    (hmain : cfg.HAVE_MAIN = false) (hstart : startup_fails env argc argv data = false)
    (hterm : first_terminate env 0 k) (hfuel : fuel ≤ k) :
    rarch_main cfg env fuel argc argv data =
      (startup_calls env argc argv data ++ passes env 0 fuel, Outcome.running) := by
  have hl := main_loop_running env fuel 0 (fun i hi => hterm.1 i (by omega))
  rw [rarch_main_eq]
  simp [hstart, hmain, hl]

theorem rarch_main_calls_of_start (cfg : BuildConfig) (env : Env) (fuel : Nat)
    (argc : Int) (argv : List String) (data : Ptr)
    (hstart : startup_fails env argc argv data = false) :
    ∃ rest, (rarch_main cfg env fuel argc argv data).1 =
        startup_calls env argc argv data ++ rest ∧
      (∀ c ∈ rest, c.in_main_loop = true ∨ c.in_main_exit = true) ∧
      (rarch_main cfg env fuel argc argv data).2 ≠ Outcome.returned 1 := by
  have hl := main_loop_in_main_loop env fuel 0
  have hx := main_exit_in_main_exit cfg env data
  rw [rarch_main_eq]
  simp only [hstart, Bool.false_eq_true, if_false]
  have h01 : Outcome.returned 0 ≠ Outcome.returned 1 := by decide
  have hr1 : Outcome.running ≠ Outcome.returned 1 := by decide
  have hp1 : Outcome.replaced ≠ Outcome.returned 1 := by decide
  split_ifs
  · exact ⟨[], by simp, by simp, h01⟩
  · exact ⟨(main_loop env fuel 0).1, rfl, fun c hc => Or.inl (hl c hc).1, hr1⟩
  · refine ⟨(main_loop env fuel 0).1 ++ (main_exit cfg env data).1, by simp, ?_, hp1⟩
    intro c hc
    rcases List.mem_append.1 hc with h | h
    · exact Or.inl (hl c h).1
    · exact Or.inr (hx c h).1
  · refine ⟨(main_loop env fuel 0).1 ++ (main_exit cfg env data).1, by simp, ?_, h01⟩
    intro c hc
    rcases List.mem_append.1 hc with h | h
    · exact Or.inl (hl c h).1
    · exact Or.inr (hx c h).1

theorem startup_calls_count_ui_init (env : Env) (argc : Int) (argv : List String)
    (data : Ptr) :
    (startup_calls env argc argv data).count Call.ui_companion_driver_init_first = 1 := by
  unfold startup_calls
  cases env.frontend_driver_is_inited <;> simp [List.count_cons]

/-! ## Startup failure -/

/-- Claim C1 (bootstrap-failure short-circuit).  For every build, `argc`,
`argv` and `data`: if the frontend driver reports itself initialised and
`task_push_load_content_from_cli` returns false for the launch context, then
`rarch_main` returns 1 after exactly the three startup calls and the
submission, and none of its calls is `runloop_iterate`, `retro_sleep` or
`task_queue_check`. -/
theorem rarch_main_bootstrap_failure (cfg : BuildConfig) (env : Env) (fuel : Nat)
    (argc : Int) (argv : List String) (data : Ptr)
    (hinit : env.frontend_driver_is_inited = true)
    (hpush : env.task_push_load_content_from_cli
      ⟨argc, argv, data, env.frontend_driver_environment_get_ptr⟩ = false) :
    rarch_main cfg env fuel argc argv data =
      ([Call.rarch_ctl .RARCH_CTL_PREINIT NULL, Call.frontend_driver_init_first data,
        Call.rarch_ctl .RARCH_CTL_INIT NULL,
        Call.task_push_load_content_from_cli NULL NULL
          ⟨argc, argv, data, env.frontend_driver_environment_get_ptr⟩
          .CORE_TYPE_PLAIN NULL NULL], Outcome.returned 1) ∧
    ∀ c ∈ (rarch_main cfg env fuel argc argv data).1, c.in_main_loop = false := by
  have hf : startup_fails env argc argv data = true := by
    simp [startup_fails, launch_info, hinit, hpush]
  rw [rarch_main_eq, if_pos hf]
  refine ⟨rfl, ?_⟩
  simp [Call.in_main_loop]

/-- Claim C1 at a concrete input: desktop build, driver initialised, content load refused. -/
theorem rarch_main_bootstrap_failure_witness :
    envLoadFails.frontend_driver_is_inited = true ∧
    envLoadFails.task_push_load_content_from_cli
      ⟨1, ["app"], 7, envLoadFails.frontend_driver_environment_get_ptr⟩ = false ∧
    (rarch_main cfgStandalone envLoadFails 10 1 ["app"] 7).2 = Outcome.returned 1 ∧
    ∀ c ∈ (rarch_main cfgStandalone envLoadFails 10 1 ["app"] 7).1,
      c.in_main_loop = false :=
  ⟨rfl, rfl,
   congrArg Prod.snd
     (rarch_main_bootstrap_failure cfgStandalone envLoadFails 10 1 ["app"] 7 rfl rfl).1,
   (rarch_main_bootstrap_failure cfgStandalone envLoadFails 10 1 ["app"] 7 rfl rfl).2⟩

/-! ## Shutdown -/

/-- Claim C2, as amended.  Provided `frontend_driver_exitspawn` returns,
`main_exit` returns after making exactly these calls, each once, in this
order: the save-current-config event if the flag is set; the menu detach if
`HAVE_MENU`; core `MAIN_DEINIT`; the performance-counter report event;
`logger_shutdown` if `HAVE_LOGGER` and not `ANDROID`;
`frontend_driver_deinit(args)`; `frontend_driver_exitspawn` with the core path
and its size; core `DESTROY`; `ui_companion_driver_deinit`;
`frontend_driver_shutdown(false)`; the driver registry deinit;
`ui_companion_driver_free`; `frontend_driver_free`.  The UI companion is
deinitialised before `frontend_driver_shutdown` and freed after it and after
the registry deinit. -/
theorem main_exit_order (cfg : BuildConfig) (env : Env) (args : Ptr)
    (hret : env.frontend_driver_exitspawn_returns = true) :
    main_exit cfg env args =
      ((if env.config_save_on_exit then
          [Call.command_event .CMD_EVENT_MENU_SAVE_CURRENT_CONFIG NULL]
        else []) ++
       (if cfg.HAVE_MENU then
          [Call.menu_driver_ctl .RARCH_MENU_CTL_UNSET_OWN_DRIVER NULL]
        else []) ++
       [Call.rarch_ctl .RARCH_CTL_MAIN_DEINIT NULL,
        Call.command_event .CMD_EVENT_PERFCNT_REPORT_FRONTEND_LOG NULL] ++
       (if cfg.HAVE_LOGGER && !cfg.ANDROID then [Call.logger_shutdown] else []) ++
       [Call.frontend_driver_deinit args,
        Call.frontend_driver_exitspawn env.path_core env.path_core_realsize,
        Call.rarch_ctl .RARCH_CTL_DESTROY NULL,
        Call.ui_companion_driver_deinit,
        Call.frontend_driver_shutdown false,
        Call.driver_ctl .RARCH_DRIVER_CTL_DEINIT NULL,
        Call.ui_companion_driver_free,
        Call.frontend_driver_free], true) ∧
    (main_exit cfg env args).1.Nodup :=
  ⟨main_exit_of_returns cfg env args hret, main_exit_nodup cfg env args⟩

/-- Claim C2, as amended, at a concrete input: the thirteen calls of the desktop build with save-on-exit set. -/
theorem main_exit_order_witness :
    envOk.frontend_driver_exitspawn_returns = true ∧
    main_exit cfgStandalone envOk 7 =
      ([Call.command_event .CMD_EVENT_MENU_SAVE_CURRENT_CONFIG NULL,
        Call.menu_driver_ctl .RARCH_MENU_CTL_UNSET_OWN_DRIVER NULL,
        Call.rarch_ctl .RARCH_CTL_MAIN_DEINIT NULL,
        Call.command_event .CMD_EVENT_PERFCNT_REPORT_FRONTEND_LOG NULL,
        Call.logger_shutdown,
        Call.frontend_driver_deinit 7,
        Call.frontend_driver_exitspawn 8192 260,
        Call.rarch_ctl .RARCH_CTL_DESTROY NULL,
        Call.ui_companion_driver_deinit,
        Call.frontend_driver_shutdown false,
        Call.driver_ctl .RARCH_DRIVER_CTL_DEINIT NULL,
        Call.ui_companion_driver_free,
        Call.frontend_driver_free], true) :=
  ⟨rfl, (main_exit_order cfgStandalone envOk 7 rfl).1⟩

/-- Claim C2, counterexample.  On the desktop build with
`frontend_driver_exitspawn` returning, `main_exit` returns, but its calls are
not in the order the claim gives: `ui_companion_driver_free` is made after
`frontend_driver_shutdown` (and after the registry deinit), not before. -/
theorem main_exit_ui_companion_free_after_shutdown :
    envOk.frontend_driver_exitspawn_returns = true ∧
    (main_exit cfgStandalone envOk 7).2 = true ∧
    (main_exit cfgStandalone envOk 7).1 ≠ spec_shutdown_order envOk 7 ∧
    (main_exit cfgStandalone envOk 7).1.indexOf (Call.frontend_driver_shutdown false) = 9 ∧
    (main_exit cfgStandalone envOk 7).1.indexOf
      (Call.driver_ctl .RARCH_DRIVER_CTL_DEINIT NULL) = 10 ∧
    (main_exit cfgStandalone envOk 7).1.indexOf Call.ui_companion_driver_free = 11 := by
  decide

/-- Claim C3 (save-on-exit ordering).  In `main_exit` a save-current-config
event is among the calls if and only if `config_save_on_exit` is set; the
calls are that event (when the flag is set) followed by a remainder that
holds no save event and holds `rarch_ctl(RARCH_CTL_MAIN_DEINIT)`,
`frontend_driver_deinit(args)` and every other call, so the event, when made,
is the first call and strictly precedes all teardown. -/
theorem main_exit_save_config_first (cfg : BuildConfig) (env : Env) (args : Ptr) :
    ((∃ c ∈ (main_exit cfg env args).1, c.is_save_config = true) ↔
      env.config_save_on_exit = true) ∧
    ∃ rest,
      (main_exit cfg env args).1 =
        (if env.config_save_on_exit then
           [Call.command_event .CMD_EVENT_MENU_SAVE_CURRENT_CONFIG NULL]
         else []) ++ rest ∧
      (∀ c ∈ rest, c.is_save_config = false) ∧
      Call.rarch_ctl .RARCH_CTL_MAIN_DEINIT NULL ∈ rest ∧
      Call.frontend_driver_deinit args ∈ rest ∧
      Call.frontend_driver_exitspawn env.path_core env.path_core_realsize ∈ rest := by
  have hrest : ∀ c ∈
      ((if cfg.HAVE_MENU then
          [Call.menu_driver_ctl .RARCH_MENU_CTL_UNSET_OWN_DRIVER NULL]
        else []) ++
       [Call.rarch_ctl .RARCH_CTL_MAIN_DEINIT NULL,
        Call.command_event .CMD_EVENT_PERFCNT_REPORT_FRONTEND_LOG NULL] ++
       (if cfg.HAVE_LOGGER && !cfg.ANDROID then [Call.logger_shutdown] else []) ++
       [Call.frontend_driver_deinit args,
        Call.frontend_driver_exitspawn env.path_core env.path_core_realsize] ++
       (if env.frontend_driver_exitspawn_returns then
          [Call.rarch_ctl .RARCH_CTL_DESTROY NULL,
           Call.ui_companion_driver_deinit,
           Call.frontend_driver_shutdown false,
           Call.driver_ctl .RARCH_DRIVER_CTL_DEINIT NULL,
           Call.ui_companion_driver_free,
           Call.frontend_driver_free]
        else [])), c.is_save_config = false := by
    simp only [List.forall_mem_append]
    refine ⟨⟨⟨⟨forall_mem_ite_nil _ _ _ ?_, ?_⟩, forall_mem_ite_nil _ _ _ ?_⟩, ?_⟩,
      forall_mem_ite_nil _ _ _ ?_⟩ <;> simp [Call.is_save_config]
  refine ⟨?_, _, main_exit_calls cfg env args, hrest, ?_, ?_, ?_⟩
  · rw [main_exit_calls]
    constructor
    · rintro ⟨c, hc, hs⟩
      rcases List.mem_append.1 hc with h | h
      · by_contra hflag
        rw [if_neg hflag] at h
        simp at h
      · rw [hrest c h] at hs
        exact absurd hs (by decide)
    · intro hflag
      refine ⟨Call.command_event .CMD_EVENT_MENU_SAVE_CURRENT_CONFIG NULL,
        List.mem_append_left _ ?_, rfl⟩
      rw [if_pos hflag]
      exact List.mem_singleton_self _
  · simp
  · simp
  · simp

/-! ## The main loop -/

/-- Claim C4 (task pumping per tick).  In the standalone build, when startup
does not fail and the loop consumes `k + 1` results (the first terminate
result is the one of pass `k`, counting from 0), the calls of `rarch_main`
are the startup calls, then the calls of `k + 1` passes, then those of
`main_exit`; `task_queue_check` is called exactly `k + 1` times; every pass,
the terminating one included, is `runloop_iterate`, then at most a
`retro_sleep`, then `task_queue_check`; and the loop's calls end with the
`task_queue_check` of the terminating pass. -/
theorem rarch_main_task_queue_check_every_tick (cfg : BuildConfig) (env : Env)
    (fuel : Nat) (argc : Int) (argv : List String) (data : Ptr) (k : Nat)
    (hmain : cfg.HAVE_MAIN = false) (hstart : startup_fails env argc argv data = false)
    (hterm : first_terminate env 0 k) (hfuel : k < fuel) :
    (rarch_main cfg env fuel argc argv data).1 =
      startup_calls env argc argv data ++ passes env 0 (k + 1) ++
        (main_exit cfg env data).1 ∧
    (rarch_main cfg env fuel argc argv data).1.count Call.task_queue_check = k + 1 ∧
    (∀ i, ∃ mid, (loop_body env i).1 =
        Call.runloop_iterate 0 :: (mid ++ [Call.task_queue_check]) ∧
        mid.length ≤ 1 ∧ ∀ c ∈ mid, c.is_retro_sleep = true) ∧
    (loop_body env k).2 = -1 ∧
    ∃ init, passes env 0 (k + 1) = init ++ [Call.task_queue_check] := by
  have hc := (rarch_main_calls_of_break cfg env fuel argc argv data k hmain hstart hterm
    hfuel).1
  refine ⟨hc, ?_, ?_, ?_, passes_ends_with_task_queue_check env k 0⟩
  · have h1 : (startup_calls env argc argv data).count Call.task_queue_check = 0 :=
      List.count_eq_zero_of_not_mem fun hm => by
        have := (startup_calls_not_loop_not_exit env argc argv data _ hm).1
        exact absurd this (by decide)
    have h2 : (main_exit cfg env data).1.count Call.task_queue_check = 0 :=
      List.count_eq_zero_of_not_mem fun hm => by
        have := (main_exit_in_main_exit cfg env data _ hm).2
        exact absurd this (by decide)
    rw [hc, List.count_append, List.count_append, h1, h2,
      passes_count_task_queue_check]
    omega
  · intro i
    refine ⟨_, loop_body_calls env i, ?_, ?_⟩
    · split_ifs <;> simp
    · intro c hc
      split_ifs at hc
      · rw [List.mem_singleton.1 hc]; rfl
      · simp at hc
  · rw [loop_body_ret]; simpa using hterm.2

/-- Claim C4 at a concrete input: four ticks, four calls of `task_queue_check`. -/
theorem rarch_main_task_queue_check_every_tick_witness :
    cfgStandalone.HAVE_MAIN = false ∧ startup_fails envOk 1 ["app"] 7 = false ∧
    first_terminate envOk 0 3 ∧
    (rarch_main cfgStandalone envOk 10 1 ["app"] 7).1.count Call.task_queue_check = 4 :=
  ⟨rfl, rfl, by decide,
   (rarch_main_task_queue_check_every_tick cfgStandalone envOk 10 1 ["app"] 7 3 rfl rfl
      (by decide) (by decide)).2.1⟩

/-- Claim C8 (sleep decision).  In the pass entered as the `n`-th one,
`runloop_iterate` is called with `sleep_ms` holding 0; `retro_sleep` is called
at most once, exactly when the result is 1 with a value `sleep_ms > 0` left
behind, with that value as argument, after `runloop_iterate` and before
`task_queue_check`; a pass of any run with the same result and `sleep_ms`
makes the same calls; and the calls of the loop are those of consecutive
passes. -/
theorem loop_body_sleep_decision (env : Env) (n : Nat) :
    (loop_body env n).1 =
      Call.runloop_iterate 0 ::
        ((if (env.runloop_iterate n 0).1 = 1 ∧ 0 < (env.runloop_iterate n 0).2 then
            [Call.retro_sleep (env.runloop_iterate n 0).2]
          else []) ++ [Call.task_queue_check]) ∧
    (loop_body env n).1.countP Call.is_retro_sleep ≤ 1 ∧
    (∀ ms, Call.retro_sleep ms ∈ (loop_body env n).1 ↔
      ((env.runloop_iterate n 0).1 = 1 ∧ 0 < (env.runloop_iterate n 0).2 ∧
        ms = (env.runloop_iterate n 0).2)) ∧
    (∀ (env2 : Env) (m : Nat), env2.runloop_iterate m 0 = env.runloop_iterate n 0 →
      (loop_body env2 m).1 = (loop_body env n).1) ∧
    (∀ fuel, ∃ m, m ≤ fuel ∧ (main_loop env fuel 0).1 = passes env 0 m) := by
  refine ⟨loop_body_calls env n, ?_, ?_, ?_, fun fuel => main_loop_calls_passes env fuel 0⟩
  · rw [loop_body_calls]
    split_ifs <;> simp [List.countP_cons, Call.is_retro_sleep]
  · intro ms
    rw [loop_body_calls]
    by_cases h : (env.runloop_iterate n 0).1 = 1 ∧ 0 < (env.runloop_iterate n 0).2
    · simp only [if_pos h]
      simp [h.1, h.2]
    · simp only [if_neg h]
      constructor
      · intro hm
        simp at hm
      · intro hh
        exact absurd ⟨hh.1, hh.2.1⟩ h
  · intro env2 m h
    rw [loop_body_calls, loop_body_calls, h]

/-! ## Leaving the loop -/

/-- Claim C7, as amended.  In the standalone build, when startup does not
fail and the first terminate result is the one of pass `k` (from 0, so the
`(k + 1)`-th tick), then with enough fuel, whether or not
`frontend_driver_exitspawn` returns: `rarch_main` makes the startup calls,
then the calls of exactly `k + 1` passes, then the calls of `main_exit` on the
`data` pointer it was given; `runloop_iterate` is called `k + 1` times;
`frontend_driver_deinit` is called once, with `data`, and
`frontend_driver_exitspawn` once, so `main_exit` is entered exactly once.
The run returns 0 exactly when `frontend_driver_exitspawn` returns (then
`frontend_driver_free` is called once); otherwise the process image is
replaced.  With `k` passes or fewer the loop has not ended. -/
theorem rarch_main_loop_exit (cfg : BuildConfig) (env : Env)
    (argc : Int) (argv : List String) (data : Ptr) (k : Nat)
    (hmain : cfg.HAVE_MAIN = false) (hstart : startup_fails env argc argv data = false)
    (hterm : first_terminate env 0 k) :
    (∀ fuel, k < fuel →
      (rarch_main cfg env fuel argc argv data).1 =
        startup_calls env argc argv data ++ passes env 0 (k + 1) ++
          (main_exit cfg env data).1 ∧
      (rarch_main cfg env fuel argc argv data).1.countP Call.is_runloop_iterate = k + 1 ∧
      (rarch_main cfg env fuel argc argv data).1.count
        (Call.frontend_driver_deinit data) = 1 ∧
      (∀ a, Call.frontend_driver_deinit a ∈ (rarch_main cfg env fuel argc argv data).1 →
        a = data) ∧
      (rarch_main cfg env fuel argc argv data).1.count
        (Call.frontend_driver_exitspawn env.path_core env.path_core_realsize) = 1 ∧
      (rarch_main cfg env fuel argc argv data).2 =
        (if env.frontend_driver_exitspawn_returns then Outcome.returned 0
         else Outcome.replaced) ∧
      (env.frontend_driver_exitspawn_returns = true →
        (rarch_main cfg env fuel argc argv data).2 = Outcome.returned 0 ∧
        (rarch_main cfg env fuel argc argv data).1.count Call.frontend_driver_free = 1)) ∧
    (∀ fuel, fuel ≤ k →
      rarch_main cfg env fuel argc argv data =
        (startup_calls env argc argv data ++ passes env 0 fuel, Outcome.running)) := by
  refine ⟨fun fuel hfuel => ?_, fun fuel hfuel =>
    rarch_main_running cfg env fuel argc argv data k hmain hstart hterm hfuel⟩
  obtain ⟨hc, ho⟩ :=
    rarch_main_calls_of_break cfg env fuel argc argv data k hmain hstart hterm hfuel
  have hnd := main_exit_nodup cfg env data
  have hsn : ∀ c, c.in_main_exit = true → c ∉ startup_calls env argc argv data :=
    fun c hx hm => by
      rw [(startup_calls_not_loop_not_exit env argc argv data c hm).2] at hx
      exact absurd hx (by decide)
  have hpn : ∀ c, c.in_main_exit = true → c ∉ passes env 0 (k + 1) :=
    fun c hx hm => by
      rw [(passes_in_main_loop env (k + 1) 0 c hm).2] at hx
      exact absurd hx (by decide)
  have hs : ∀ c, c.in_main_exit = true → (startup_calls env argc argv data).count c = 0 :=
    fun c hx => List.count_eq_zero_of_not_mem (hsn c hx)
  have hp : ∀ c, c.in_main_exit = true → (passes env 0 (k + 1)).count c = 0 :=
    fun c hx => List.count_eq_zero_of_not_mem (hpn c hx)
  have hmem1 : Call.frontend_driver_deinit data ∈ (main_exit cfg env data).1 := by
    rw [main_exit_calls]; simp
  have hmem3 : Call.frontend_driver_exitspawn env.path_core env.path_core_realsize ∈
      (main_exit cfg env data).1 := by
    rw [main_exit_calls]; simp
  refine ⟨hc, ?_, ?_, ?_, ?_, ho, ?_⟩
  · have h1 : (startup_calls env argc argv data).countP Call.is_runloop_iterate = 0 :=
      List.countP_eq_zero.2 fun c hm hx => by
        have := in_main_loop_of_is_runloop_iterate c hx
        rw [(startup_calls_not_loop_not_exit env argc argv data c hm).1] at this
        exact absurd this (by decide)
    have h2 : (main_exit cfg env data).1.countP Call.is_runloop_iterate = 0 :=
      List.countP_eq_zero.2 fun c hm hx => by
        have := in_main_loop_of_is_runloop_iterate c hx
        rw [(main_exit_in_main_exit cfg env data c hm).2] at this
        exact absurd this (by decide)
    rw [hc, List.countP_append, List.countP_append, h1, h2,
      passes_countP_runloop_iterate]
    omega
  · rw [hc, List.count_append, List.count_append,
      hs (Call.frontend_driver_deinit data) rfl, hp (Call.frontend_driver_deinit data) rfl,
      List.count_eq_one_of_mem hnd hmem1]
  · intro a ha
    rw [hc] at ha
    rcases List.mem_append.1 ha with h | h
    · rcases List.mem_append.1 h with h | h
      · exact absurd h (hsn _ rfl)
      · exact absurd h (hpn _ rfl)
    · rw [main_exit_calls] at h
      simp only [List.mem_append] at h
      rcases h with h | ((((h | h) | h) | h) | h)
      · split_ifs at h <;> simp at h
      · split_ifs at h <;> simp at h
      · simp at h
      · split_ifs at h <;> simp at h
      · simpa using h
      · split_ifs at h <;> simp at h
  · rw [hc, List.count_append, List.count_append,
      hs (Call.frontend_driver_exitspawn env.path_core env.path_core_realsize) rfl,
      hp (Call.frontend_driver_exitspawn env.path_core env.path_core_realsize) rfl,
      List.count_eq_one_of_mem hnd hmem3]
  · intro hret
    have hmem2 : Call.frontend_driver_free ∈ (main_exit cfg env data).1 := by
      rw [main_exit_of_returns cfg env data hret]; simp
    refine ⟨by rw [ho, hret]; rfl, ?_⟩
    rw [hc, List.count_append, List.count_append,
      hs Call.frontend_driver_free rfl, hp Call.frontend_driver_free rfl,
      List.count_eq_one_of_mem hnd hmem2]

/-- Claim C7, as amended, at concrete inputs.  Where `frontend_driver_exitspawn`
returns: with four passes allowed the run returns 0, with three it is still
in the loop.  Where it does not return: `runloop_iterate` is still called
four times and `frontend_driver_deinit(7)` once, and the process image is
replaced. -/
theorem rarch_main_loop_exit_witness :
    cfgStandalone.HAVE_MAIN = false ∧ startup_fails envOk 1 ["app"] 7 = false ∧
    first_terminate envOk 0 3 ∧ envOk.frontend_driver_exitspawn_returns = true ∧
    (rarch_main cfgStandalone envOk 4 1 ["app"] 7).2 = Outcome.returned 0 ∧
    (rarch_main cfgStandalone envOk 3 1 ["app"] 7).2 = Outcome.running ∧
    startup_fails envRespawn 1 ["app"] 7 = false ∧ first_terminate envRespawn 0 3 ∧
    (rarch_main cfgStandalone envRespawn 4 1 ["app"] 7).1.countP
      Call.is_runloop_iterate = 4 ∧
    (rarch_main cfgStandalone envRespawn 4 1 ["app"] 7).1.count
      (Call.frontend_driver_deinit 7) = 1 ∧
    (rarch_main cfgStandalone envRespawn 4 1 ["app"] 7).2 = Outcome.replaced :=
  ⟨rfl, rfl, by decide, rfl,
   (((rarch_main_loop_exit cfgStandalone envOk 1 ["app"] 7 3 rfl rfl (by decide)).1 4
       (by decide)).2.2.2.2.2.2 rfl).1,
   congrArg Prod.snd
     ((rarch_main_loop_exit cfgStandalone envOk 1 ["app"] 7 3 rfl rfl (by decide)).2 3
       (by decide)),
   rfl, by decide,
   ((rarch_main_loop_exit cfgStandalone envRespawn 1 ["app"] 7 3 rfl rfl (by decide)).1 4
       (by decide)).2.1,
   ((rarch_main_loop_exit cfgStandalone envRespawn 1 ["app"] 7 3 rfl rfl (by decide)).1 4
       (by decide)).2.2.1,
   ((rarch_main_loop_exit cfgStandalone envRespawn 1 ["app"] 7 3 rfl rfl (by decide)).1 4
       (by decide)).2.2.2.2.2.1⟩

/-- Claim C7, counterexample.  Standalone build, startup succeeds, the first
terminate result comes at the fourth tick, but `frontend_driver_exitspawn`
replaces the process image: `rarch_main` enters `main_exit` and never returns
0, and the calls after `frontend_driver_exitspawn` are not made. -/
theorem rarch_main_no_return_when_respawned :
    cfgStandalone.HAVE_MAIN = false ∧ startup_fails envRespawn 1 ["app"] 7 = false ∧
    first_terminate envRespawn 0 3 ∧
    (rarch_main cfgStandalone envRespawn 10 1 ["app"] 7).2 = Outcome.replaced ∧
    (rarch_main cfgStandalone envRespawn 10 1 ["app"] 7).2 ≠ Outcome.returned 0 ∧
    (rarch_main cfgStandalone envRespawn 10 1 ["app"] 7).1.getLast? =
      some (Call.frontend_driver_exitspawn 8192 260) := by
  decide

/-! ## Startup -/

/-- Claim C10 (startup order and conditional content bootstrap).  For every
build, `argc`, `argv` and `data`, the calls of `rarch_main` are
`rarch_ctl(RARCH_CTL_PREINIT)`, `frontend_driver_init_first(data)`,
`rarch_ctl(RARCH_CTL_INIT)`, then, if and only if
`frontend_driver_is_inited()` is true, one
`task_push_load_content_from_cli` whose context holds `argc`, `argv`, `data`
and the value of `frontend_driver_environment_get_ptr()`, then a remainder
with no further submission; when the driver is not initialised the run does
not return 1 and goes on to `ui_companion_driver_init_first`. -/
theorem rarch_main_startup_order (cfg : BuildConfig) (env : Env) (fuel : Nat)
    (argc : Int) (argv : List String) (data : Ptr) :
    ∃ rest,
      (rarch_main cfg env fuel argc argv data).1 =
        [Call.rarch_ctl .RARCH_CTL_PREINIT NULL, Call.frontend_driver_init_first data,
         Call.rarch_ctl .RARCH_CTL_INIT NULL] ++
        (if env.frontend_driver_is_inited then
           [Call.task_push_load_content_from_cli NULL NULL
              ⟨argc, argv, data, env.frontend_driver_environment_get_ptr⟩
              .CORE_TYPE_PLAIN NULL NULL]
         else []) ++ rest ∧
      (∀ c ∈ rest, c.is_task_push_load_content = false) ∧
      (env.frontend_driver_is_inited = false →
        (rarch_main cfg env fuel argc argv data).2 ≠ Outcome.returned 1 ∧
        rest.head? = some Call.ui_companion_driver_init_first) := by
  cases hstart : startup_fails env argc argv data
  · obtain ⟨rest, hc, hr, ho⟩ :=
      rarch_main_calls_of_start cfg env fuel argc argv data hstart
    refine ⟨Call.ui_companion_driver_init_first :: rest, ?_, ?_, fun _ => ⟨ho, rfl⟩⟩
    · rw [hc]; simp [startup_calls, launch_info]
    · intro c hc
      rcases List.mem_cons.1 hc with h | h
      · rw [h]; rfl
      · rcases hr c h with h1 | h1
        · exact is_task_push_of_in_main_loop c h1
        · exact is_task_push_of_in_main_exit c h1
  · have hinit : env.frontend_driver_is_inited = true := by
      unfold startup_fails at hstart
      cases h : env.frontend_driver_is_inited
      · rw [h] at hstart; simp at hstart
      · rfl
    refine ⟨[], ?_, by simp, fun h => by rw [hinit] at h; exact absurd h (by decide)⟩
    rw [rarch_main_eq, if_pos hstart]
    simp [hinit, launch_info]

/-- Claim C10 at a concrete input where the driver is not initialised. -/
theorem rarch_main_startup_order_witness :
    envNoDriver.frontend_driver_is_inited = false ∧
    ∃ rest,
      (rarch_main cfgStandalone envNoDriver 10 1 ["app"] 7).1 =
        [Call.rarch_ctl .RARCH_CTL_PREINIT NULL, Call.frontend_driver_init_first 7,
         Call.rarch_ctl .RARCH_CTL_INIT NULL] ++
        (if envNoDriver.frontend_driver_is_inited then
           [Call.task_push_load_content_from_cli NULL NULL
              ⟨1, ["app"], 7, envNoDriver.frontend_driver_environment_get_ptr⟩
              .CORE_TYPE_PLAIN NULL NULL]
         else []) ++ rest ∧
      (∀ c ∈ rest, c.is_task_push_load_content = false) ∧
      (rarch_main cfgStandalone envNoDriver 10 1 ["app"] 7).2 ≠ Outcome.returned 1 ∧
      rest.head? = some Call.ui_companion_driver_init_first :=
  ⟨rfl,
   (rarch_main_startup_order cfgStandalone envNoDriver 10 1 ["app"] 7).imp
     fun _ h => ⟨h.1, h.2.1, h.2.2 rfl⟩⟩

/-- Claim C5, as amended.  `ui_companion_driver_init_first` is called exactly
once, as the last startup call, on every run of `rarch_main` whose startup
does not fail (the content load is accepted, or the driver is not initialised
and no load is submitted); when the content load is refused, `rarch_main`
returns before reaching it and it is not called. -/
theorem rarch_main_ui_companion_init_count (cfg : BuildConfig) (env : Env) (fuel : Nat)
    (argc : Int) (argv : List String) (data : Ptr) :
    if startup_fails env argc argv data then
      (rarch_main cfg env fuel argc argv data).1.count
        Call.ui_companion_driver_init_first = 0
    else
      (rarch_main cfg env fuel argc argv data).1.count
        Call.ui_companion_driver_init_first = 1 ∧
      ∃ rest, (rarch_main cfg env fuel argc argv data).1 =
        startup_calls env argc argv data ++ rest := by
  cases hstart : startup_fails env argc argv data
  · simp only [Bool.false_eq_true, if_false]
    obtain ⟨rest, hc, hr, _⟩ :=
      rarch_main_calls_of_start cfg env fuel argc argv data hstart
    refine ⟨?_, rest, hc⟩
    have h0 : rest.count Call.ui_companion_driver_init_first = 0 :=
      List.count_eq_zero_of_not_mem fun hm => by
        rcases hr _ hm with h | h <;> exact absurd h (by decide)
    rw [hc, List.count_append, startup_calls_count_ui_init, h0]
  · simp only [if_true]
    rw [rarch_main_eq, if_pos hstart]
    simp [List.count_cons]

/-- Claim C5, as amended, on a run whose content load is accepted: one call,
after which the run goes on. -/
theorem rarch_main_ui_companion_init_count_witness :
    startup_fails envOk 1 ["app"] 7 = false ∧
    (rarch_main cfgStandalone envOk 10 1 ["app"] 7).1.count
      Call.ui_companion_driver_init_first = 1 :=
  ⟨rfl, (rarch_main_ui_companion_init_count cfgStandalone envOk 10 1 ["app"] 7).1⟩

/-- Claim C5, counterexample.  The driver is initialised and the content load
is refused: `rarch_main` returns 1 and `ui_companion_driver_init_first` has
not been called, so it is not called once on every run. -/
theorem rarch_main_ui_companion_not_initialised_on_load_failure :
    envLoadFails.frontend_driver_is_inited = true ∧
    (rarch_main cfgStandalone envLoadFails 10 1 ["app"] 7).2 = Outcome.returned 1 ∧
    (rarch_main cfgStandalone envLoadFails 10 1 ["app"] 7).1.count
      Call.ui_companion_driver_init_first = 0 ∧
    (rarch_main cfgStandalone envLoadFails 10 1 ["app"] 7).1.count
      Call.ui_companion_driver_init_first ≠ 1 := by
  decide

/-! ## The standalone entry point -/

/-- Claim C6, as amended.  In the standalone program, when the initial
content-load submission fails, `main` returns exit code 1, and it does so
without running `main_exit`: none of its calls is a teardown call or a
main-loop call. -/
theorem main_bootstrap_failure_exit_code (cfg : BuildConfig) (env : Env) (fuel : Nat)
    (argc : Int) (argv : List String)
    (hmain : cfg.HAVE_MAIN = false)
    (hfail : startup_fails env argc argv NULL = true) :
    ∃ tr, main cfg env fuel argc argv = some (tr, Outcome.returned 1) ∧
      ∀ c ∈ tr, c.in_main_exit = false ∧ c.in_main_loop = false := by
  unfold main
  rw [rarch_main_eq, if_pos hfail]
  simp only [hmain, Bool.false_eq_true, if_false]
  refine ⟨_, rfl, ?_⟩
  cases cfg.__PS4__ <;> simp [Call.in_main_exit, Call.in_main_loop]

/-- Claim C6, as amended, at a concrete input. -/
theorem main_bootstrap_failure_exit_code_witness :
    cfgStandalone.HAVE_MAIN = false ∧ startup_fails envLoadFails 1 ["app"] NULL = true ∧
    ∃ tr, main cfgStandalone envLoadFails 10 1 ["app"] = some (tr, Outcome.returned 1) ∧
      ∀ c ∈ tr, c.in_main_exit = false ∧ c.in_main_loop = false :=
  ⟨rfl, rfl, main_bootstrap_failure_exit_code cfgStandalone envLoadFails 10 1 ["app"] rfl rfl⟩

/-- Claim C6, counterexample.  Standalone desktop build, content load
refused: `main` returns 1 after the three startup calls and the submission,
and none of the calls `main_exit` would make has been made, so the shutdown
sequence is not executed before the process returns from `main`. -/
theorem main_load_failure_skips_main_exit :
    cfgStandalone.HAVE_MAIN = false ∧ startup_fails envLoadFails 1 ["app"] NULL = true ∧
    main cfgStandalone envLoadFails 10 1 ["app"] =
      some ([Call.rarch_ctl .RARCH_CTL_PREINIT NULL, Call.frontend_driver_init_first NULL,
             Call.rarch_ctl .RARCH_CTL_INIT NULL,
             Call.task_push_load_content_from_cli NULL NULL ⟨1, ["app"], NULL, 4096⟩
               .CORE_TYPE_PLAIN NULL NULL], Outcome.returned 1) ∧
    (∀ c ∈ (main_exit cfgStandalone envLoadFails NULL).1,
      c ∉ [Call.rarch_ctl .RARCH_CTL_PREINIT NULL, Call.frontend_driver_init_first NULL,
           Call.rarch_ctl .RARCH_CTL_INIT NULL,
           Call.task_push_load_content_from_cli NULL NULL ⟨1, ["app"], NULL, 4096⟩
             .CORE_TYPE_PLAIN NULL NULL]) := by
  decide

/-! ## The host-owned loop -/

/-- Claim C9 (host-owned loop variant).  With `HAVE_MAIN` defined, on every
input whose startup does not fail `rarch_main` returns 0 after the startup
calls alone, none of them a main-loop call or a call of `main_exit`.  With
`HAVE_MAIN` not defined, whenever `rarch_main` returns 0 the loop has seen a
terminate result within the passes made, `main_exit` has run and returned,
and the calls are the startup calls, the passes up to the terminating one and
the calls of `main_exit`. -/
theorem rarch_main_host_owned_loop (cfg : BuildConfig) (env : Env) (fuel : Nat)
    (argc : Int) (argv : List String) (data : Ptr) :
    (cfg.HAVE_MAIN = true → startup_fails env argc argv data = false →
      rarch_main cfg env fuel argc argv data =
        (startup_calls env argc argv data, Outcome.returned 0) ∧
      ∀ c ∈ (rarch_main cfg env fuel argc argv data).1,
        c.in_main_loop = false ∧ c.in_main_exit = false) ∧
    (cfg.HAVE_MAIN = false →
      (rarch_main cfg env fuel argc argv data).2 = Outcome.returned 0 →
      ∃ k, k < fuel ∧ first_terminate env 0 k ∧ (main_exit cfg env data).2 = true ∧
        (rarch_main cfg env fuel argc argv data).1 =
          startup_calls env argc argv data ++ passes env 0 (k + 1) ++
            (main_exit cfg env data).1) := by
  constructor
  · intro hmain hstart
    have h : rarch_main cfg env fuel argc argv data =
        (startup_calls env argc argv data, Outcome.returned 0) := by
      rw [rarch_main_eq]; simp [hstart, hmain]
    rw [h]
    exact ⟨rfl, startup_calls_not_loop_not_exit env argc argv data⟩
  · intro hmain hzero
    rw [rarch_main_eq] at hzero
    cases hstart : startup_fails env argc argv data
    · cases hbreak : (main_loop env fuel 0).2
      · simp [hstart, hmain, hbreak] at hzero
      · cases hret : env.frontend_driver_exitspawn_returns
        · simp [hstart, hmain, hbreak, hret] at hzero
        · obtain ⟨k, hk, hterm⟩ := main_loop_break_inv env fuel 0 hbreak
          refine ⟨k, hk, hterm, ?_, ?_⟩
          · rw [main_exit_returns, hret]
          · exact (rarch_main_calls_of_break cfg env fuel argc argv data k hmain hstart
              hterm hk).1
    · simp [hstart] at hzero

/-- Claim C9 at concrete inputs: the hosted build, and the standalone build returning 0. -/
theorem rarch_main_host_owned_loop_witness :
    (cfgHosted.HAVE_MAIN = true ∧ startup_fails envOk 1 ["app"] 7 = false ∧
      rarch_main cfgHosted envOk 10 1 ["app"] 7 =
        (startup_calls envOk 1 ["app"] 7, Outcome.returned 0)) ∧
    (cfgStandalone.HAVE_MAIN = false ∧
      (rarch_main cfgStandalone envOk 10 1 ["app"] 7).2 = Outcome.returned 0 ∧
      ∃ k, k < 10 ∧ first_terminate envOk 0 k ∧ (main_exit cfgStandalone envOk 7).2 = true ∧
        (rarch_main cfgStandalone envOk 10 1 ["app"] 7).1 =
          startup_calls envOk 1 ["app"] 7 ++ passes envOk 0 (k + 1) ++
            (main_exit cfgStandalone envOk 7).1) :=
  ⟨⟨rfl, rfl, ((rarch_main_host_owned_loop cfgHosted envOk 10 1 ["app"] 7).1 rfl rfl).1⟩,
   ⟨rfl, by decide,
    (rarch_main_host_owned_loop cfgStandalone envOk 10 1 ["app"] 7).2 rfl (by decide)⟩⟩

/-! ## Further properties -/

/-- When `frontend_driver_exitspawn` does not return, `main_exit` does not
return either: its last call is `frontend_driver_exitspawn`, and core
`DESTROY`, the UI companion teardown, `frontend_driver_shutdown` and
`frontend_driver_free` are not reached. -/
theorem main_exit_stops_at_exitspawn (cfg : BuildConfig) (env : Env) (args : Ptr)
    (hret : env.frontend_driver_exitspawn_returns = false) :
    (main_exit cfg env args).2 = false ∧
    (main_exit cfg env args).1.getLast? =
      some (Call.frontend_driver_exitspawn env.path_core env.path_core_realsize) ∧
    Call.rarch_ctl .RARCH_CTL_DESTROY NULL ∉ (main_exit cfg env args).1 ∧
    Call.ui_companion_driver_deinit ∉ (main_exit cfg env args).1 ∧
    Call.frontend_driver_shutdown false ∉ (main_exit cfg env args).1 ∧
    Call.ui_companion_driver_free ∉ (main_exit cfg env args).1 ∧
    Call.frontend_driver_free ∉ (main_exit cfg env args).1 := by
  have h1 := main_exit_calls cfg env args
  have h2 := main_exit_returns cfg env args
  rw [hret] at h2
  simp only [hret, Bool.false_eq_true, if_false, List.append_nil] at h1
  obtain ⟨save, _, _, _, _, _, _, _⟩ := env
  obtain ⟨_, menu, logger, android, _⟩ := cfg
  rw [h1]
  refine ⟨h2, ?_, ?_, ?_, ?_, ?_, ?_⟩ <;>
    cases save <;> cases menu <;> cases logger <;> cases android <;> simp

/-- The property above at a concrete input. -/
theorem main_exit_stops_at_exitspawn_witness :
    envRespawn.frontend_driver_exitspawn_returns = false ∧
    (main_exit cfgStandalone envRespawn 7).2 = false ∧
    (main_exit cfgStandalone envRespawn 7).1.getLast? =
      some (Call.frontend_driver_exitspawn 8192 260) :=
  ⟨rfl, (main_exit_stops_at_exitspawn cfgStandalone envRespawn 7 rfl).1,
   (main_exit_stops_at_exitspawn cfgStandalone envRespawn 7 rfl).2.1⟩

/-- In the standalone build `main` calls `rarch_main` with its own `argc` and
`argv` and a null `data` pointer and returns what `rarch_main` returns; ahead
of that it makes calls only under `__PS4__`, none of them a main-loop or
teardown call. -/
theorem main_runs_rarch_main (cfg : BuildConfig) (env : Env) (fuel : Nat)
    (argc : Int) (argv : List String) (hmain : cfg.HAVE_MAIN = false) :
    ∃ pro,
      main cfg env fuel argc argv =
        some (pro ++ (rarch_main cfg env fuel argc argv NULL).1,
          (rarch_main cfg env fuel argc argv NULL).2) ∧
      (cfg.__PS4__ = false → pro = []) ∧
      ∀ c ∈ pro, c.in_main_loop = false ∧ c.in_main_exit = false := by
  unfold main
  simp only [hmain, Bool.false_eq_true, if_false]
  refine ⟨_, rfl, ?_, ?_⟩
  · intro h; simp [h]
  · cases cfg.__PS4__ <;> simp [Call.in_main_loop, Call.in_main_exit]

/-- The property above at a concrete input: a full run of the desktop build
through `main` exits with code 0. -/
theorem main_runs_rarch_main_witness :
    cfgStandalone.HAVE_MAIN = false ∧
    ∃ pro,
      main cfgStandalone envOk 10 1 ["app"] =
        some (pro ++ (rarch_main cfgStandalone envOk 10 1 ["app"] NULL).1,
          Outcome.returned 0) ∧
      pro = [] :=
  ⟨rfl, (main_runs_rarch_main cfgStandalone envOk 10 1 ["app"] rfl).imp
    fun _ h => ⟨h.1, h.2.1 rfl⟩⟩

end Frontend
